import Mathlib

/-!
A shallow embedding of the `cppfmu` foundation layer (`cppfmu_common.hpp`).

The header wraps the FMI host's callback bundle (allocateMemory, freeMemory,
logger) behind a `Memory` handle, a standard-conforming `Allocator<T>`,
exception-safe construction helpers `New` / `Delete` / `AllocateUnique`, and a
`Logger` gated by a shared debug flag.  The embedding makes every interaction
with the host observable as an explicit event trace:

* host function pointers are identified by natural numbers;
* the host's allocateMemory behaviour is an oracle `HostAlloc`, mapping a
  function-pointer id and a request `(nObj, size)` to a raw block address,
  where address `0` models a null pointer (allocation failure);
* running an operation yields its C++ return value (with `Except` for the
  exception channel) together with the list of `Event`s it performed, in
  order: calls into the host's allocate, free and logger functions, and
  destructor invocations.

Exceptions are modelled by `CppError`: `fatal` embeds the header's
`FatalError` class (which carries only a message), `badAlloc` embeds
`std::bad_alloc` thrown by `Allocator::allocate`, and the remaining
constructors stand for arbitrary other exceptions a user-supplied constructor
may throw (`New` catches and rethrows all of them alike, via `catch (...)`).
-/

namespace cppfmu

/-- One observable interaction with the host environment (or a destructor
invocation, which is observable to the model object itself).  `fn` records the
identity of the host function pointer through which the call was made. -/
inductive Event where
  | hostAlloc (fn nObj size : Nat)
  | hostFree (fn ptr : Nat)
  | destroyObj (ptr : Nat)
  | hostLog (fn component : Nat) (instanceName : String) (status : Nat)
      (category message : String)
  deriving DecidableEq, Repr

/-- The host's allocateMemory behaviour: given the function-pointer id and the
request `(nObj, size)`, the raw block address returned; `0` is a null result
(allocation failure).  The embedding treats it as a pure oracle, consistent
with the header's assumption that the callback never throws. -/
def HostAlloc : Type := Nat → Nat → Nat → Nat

/-- The C++ exception channel.  `fatal msg` embeds `cppfmu::FatalError`, which
derives from `std::runtime_error` and carries only the message passed to its
constructor.  `badAlloc` embeds `std::bad_alloc`.  `runtimeError` stands for a
plain `std::runtime_error`, and `other` for any further exception type. -/
inductive CppError where
  | badAlloc
  | fatal (msg : String)
  | runtimeError (msg : String)
  | other (code : Nat)
  deriving DecidableEq, Repr

/-- Discriminator that a boundary handler uses to tell a `FatalError` apart
from every ordinary error kind (the C++ mechanism is a dedicated
`catch (const FatalError&)` clause before the generic handlers). -/
def CppError.isFatal : CppError → Bool
  | .fatal _ => true
  | _ => false

/-- The message carried by an error, when it is one of the message-carrying
kinds (`FatalError` / `std::runtime_error`). -/
def CppError.message : CppError → Option String
  | .fatal msg => some msg
  | .runtimeError msg => some msg
  | _ => none

/-- `cppfmu::Memory`: a copyable handle wrapping the two host function
pointers captured from `fmiCallbackFunctions` (`allocateMemory` and
`freeMemory`), each identified by a `Nat`. -/
structure Memory where
  m_alloc : Nat
  m_free : Nat
  deriving DecidableEq, Repr

/-- `Memory::Alloc(nObj, size)`: forwards to the captured allocateMemory
pointer; `noexcept`, so the result is a plain value (0 = null). -/
def Memory.Alloc (mem : Memory) (host : HostAlloc) (nObj size : Nat) :
    Nat × List Event :=
  (host mem.m_alloc nObj size, [Event.hostAlloc mem.m_alloc nObj size])

/-- `Memory::Free(ptr)`: forwards `ptr` (null included) to the captured
freeMemory pointer; `noexcept`, so it has no error channel. -/
def Memory.Free (mem : Memory) (ptr : Nat) : List Event :=
  [Event.hostFree mem.m_free ptr]

/-- `Memory::operator==`: both captured function pointers compare equal. -/
def Memory.beq (a b : Memory) : Bool :=
  a.m_alloc == b.m_alloc && a.m_free == b.m_free

/-- `Memory::operator!=`: defined as `!operator==(rhs)`. -/
def Memory.bne (a b : Memory) : Bool :=
  !(Memory.beq a b)

/-- `cppfmu::Allocator<T>`: wraps a `Memory`; the template parameter `T`
enters the observable behaviour only through `sizeof(T)`, recorded as
`sizeT`. -/
structure Allocator where
  sizeT : Nat
  m_memory : Memory
  deriving DecidableEq, Repr

/-- `Allocator<T>::allocate(n)`: returns null at once for `n = 0`; otherwise
makes the single call `m_memory.Alloc(n, sizeof(T))` and either returns the
non-null block or throws `std::bad_alloc`. -/
def Allocator.allocate (a : Allocator) (host : HostAlloc) (n : Nat) :
    Except CppError Nat × List Event :=
  if n == 0 then (.ok 0, [])
  else
    let res := a.m_memory.Alloc host n a.sizeT
    if res.1 ≠ 0 then (.ok res.1, res.2) else (.error .badAlloc, res.2)

/-- `Allocator<T>::deallocate(p, n)`: calls `m_memory.Free(p)` when `n > 0`,
does nothing when `n = 0`; `noexcept`. -/
def Allocator.deallocate (a : Allocator) (p : Nat) (n : Nat) : List Event :=
  if n > 0 then a.m_memory.Free p else []

/-- `Allocator<T>::operator==`: compares the wrapped `Memory` handles only. -/
def Allocator.beq (a b : Allocator) : Bool :=
  Memory.beq a.m_memory b.m_memory

/-- `Allocator<T>::operator!=`: defined as `!operator==(rhs)`. -/
def Allocator.bne (a b : Allocator) : Bool :=
  !(Allocator.beq a b)

/-- The converting constructor `Allocator<T>::Allocator(const Allocator<U>&)`
together with `rebind<U>::other`: an `Allocator<U>` (element size `sizeU`)
built from `a`, copying `a.m_memory` unchanged. -/
def Allocator.rebindTo (a : Allocator) (sizeU : Nat) : Allocator :=
  { sizeT := sizeU, m_memory := a.m_memory }

/-- The outcome of running `T`'s constructor on the forwarded arguments:
`none` when construction succeeds, `some e` when it throws `e`.  (`New`
invokes it through `alloc.construct`, i.e. placement new.) -/
def CtorOutcome : Type := Option CppError

/-- `cppfmu::New<T>(memory, args...)`: builds an `Allocator<T>` over `memory`,
calls `allocate(1)` (whose `bad_alloc` propagates), then constructs in place;
if construction throws, `deallocate(ptr, 1)` runs inside `catch (...)` and the
exception is rethrown unchanged.  On success the pointer is returned. -/
def New (memory : Memory) (host : HostAlloc) (sizeT : Nat)
    (ctor : CtorOutcome) : Except CppError Nat × List Event :=
  let alloc : Allocator := { sizeT := sizeT, m_memory := memory }
  match alloc.allocate host 1 with
  | (.error e, evs) => (.error e, evs)
  | (.ok ptr, evs) =>
    match ctor with
    | some e => (.error e, evs ++ alloc.deallocate ptr 1)
    | none => (.ok ptr, evs)

/-- `cppfmu::Delete<T>(memory, obj)`: builds an `Allocator<T>` over `memory`,
runs `alloc.destroy(obj)` (the explicit destructor call `obj->~T()`), then
`alloc.deallocate(obj, 1)`; `noexcept`, so it has no error channel. -/
def Delete (sizeT : Nat) (memory : Memory) (obj : Nat) : List Event :=
  let alloc : Allocator := { sizeT := sizeT, m_memory := memory }
  Event.destroyObj obj :: alloc.deallocate obj 1

/-- `cppfmu::UniquePtr<T>` as produced by `AllocateUnique`: the held pointer
together with the state captured by the deleter closure
`[memory] (void* ptr) { Delete(memory, reinterpret_cast<T*>(ptr)); }` —
namely the `Memory` copy and the concrete type's size baked into the
`Delete<T>` instantiation. -/
structure UniquePtr where
  ptr : Nat
  capturedMemory : Memory
  deleterSizeT : Nat
  deriving DecidableEq, Repr

/-- Running the handle's type-erased deleter on a raw pointer: the closure
body `Delete(memory, reinterpret_cast<T*>(p))`. -/
def UniquePtr.runDeleter (u : UniquePtr) (p : Nat) : List Event :=
  Delete u.deleterSizeT u.capturedMemory p

/-- Ownership status of a `std::unique_ptr` handle. -/
inductive OwnState where
  | owning
  | released
  deriving DecidableEq, Repr

/-- Modelled from the spec: `std::unique_ptr` release semantics (the class
itself is standard-library code outside this repository).  The owning handle
runs its release action exactly once, at end of ownership; afterwards the
handle is empty and ending ownership again does nothing. -/
def UniquePtr.endOwnership (u : UniquePtr) : OwnState → OwnState × List Event
  | .owning => (.released, u.runDeleter u.ptr)
  | .released => (.released, [])

/-- `cppfmu::AllocateUnique<T>(memory, args...)`: calls `New<T>` (whose
exceptions propagate) and wraps the result in a `UniquePtr` whose deleter
captures `memory` by value and calls `Delete<T>`. -/
def AllocateUnique (memory : Memory) (host : HostAlloc) (sizeT : Nat)
    (ctor : CtorOutcome) : Except CppError UniquePtr × List Event :=
  match New memory host sizeT ctor with
  | (.error e, evs) => (.error e, evs)
  | (.ok ptr, evs) =>
    (.ok { ptr := ptr, capturedMemory := memory, deleterSizeT := sizeT }, evs)

/-- `cppfmu::Logger`: captures the component handle, instance name, the
host's logger function pointer, and the shared debug flag
(`std::shared_ptr<bool>`, modelled as `none` when null and `some cell` when it
points at cell `cell` of a boolean heap). -/
structure Logger where
  m_component : Nat
  m_instanceName : String
  m_fmiLogger : Nat
  m_debugLoggingEnabled : Option Nat
  deriving DecidableEq, Repr

/-- `Logger::Log(status, category, message, args...)`: unconditionally
forwards one call to the host's logger function with the component handle,
instance name, status, category and message. -/
def Logger.Log (lg : Logger) (status : Nat) (category message : String) :
    List Event :=
  [Event.hostLog lg.m_fmiLogger lg.m_component lg.m_instanceName status
    category message]

/-- `Logger::DebugLog(status, category, message, args...)`: dereferences the
shared debug flag (`*m_debugLoggingEnabled`) and calls `Log` exactly when it
reads true.  Dereferencing a null `shared_ptr` is undefined behaviour,
modelled as result `none`; a defined execution yields `some` event list. -/
def Logger.DebugLog (lg : Logger) (heap : Nat → Bool) (status : Nat)
    (category message : String) : Option (List Event) :=
  match lg.m_debugLoggingEnabled with
  | none => none
  | some cell =>
    some (if heap cell then lg.Log status category message else [])

/-- Number of calls to the host's allocate function in a trace. -/
def countAlloc (evs : List Event) : Nat :=
  (evs.filter fun e => match e with
    | .hostAlloc _ _ _ => true
    | _ => false).length

/-- Number of calls to the host's free function in a trace. -/
def countFree (evs : List Event) : Nat :=
  (evs.filter fun e => match e with
    | .hostFree _ _ => true
    | _ => false).length

/-- Number of calls to the host's free function passing block `p`. -/
def countFreeAt (p : Nat) (evs : List Event) : Nat :=
  (evs.filter fun e => match e with
    | .hostFree _ q => q == p
    | _ => false).length

/-- Number of destructor invocations in a trace. -/
def countDestroy (evs : List Event) : Nat :=
  (evs.filter fun e => match e with
    | .destroyObj _ => true
    | _ => false).length

/-- Number of calls to the host's logger function in a trace. -/
def countLog (evs : List Event) : Nat :=
  (evs.filter fun e => match e with
    | .hostLog _ _ _ _ _ _ => true
    | _ => false).length

/-- Claim C2: `Allocator<T>::allocate(0)` returns a null result without any
host call; `deallocate(p, 0)` is a no-op that never calls the host's free
function; `allocate(n)` for `n > 0` makes exactly one call to
`Memory.Alloc(n, sizeof(T))` and returns exactly the host's block when it is
non-null, or throws `std::bad_alloc` when the host returned null — never a
smaller block, never a retry. -/
theorem Allocator_allocate_deallocate_contract (a : Allocator) (host : HostAlloc)
    (p n : Nat) (hn : 0 < n) :
    Allocator.allocate a host 0 = (.ok 0, []) ∧
    Allocator.deallocate a p 0 = [] ∧
    (Allocator.allocate a host n).2 = [Event.hostAlloc a.m_memory.m_alloc n a.sizeT] ∧
    countAlloc (Allocator.allocate a host n).2 = 1 ∧
    countFree (Allocator.allocate a host n).2 = 0 ∧
    (host a.m_memory.m_alloc n a.sizeT ≠ 0 →
      (Allocator.allocate a host n).1 = .ok (host a.m_memory.m_alloc n a.sizeT)) ∧
    (host a.m_memory.m_alloc n a.sizeT = 0 →
      (Allocator.allocate a host n).1 = .error .badAlloc) := by
  have hne : n ≠ 0 := Nat.pos_iff_ne_zero.mp hn
  refine ⟨rfl, rfl, ?_, ?_, ?_, ?_, ?_⟩
  · by_cases h : host a.m_memory.m_alloc n a.sizeT = 0 <;>
      simp [Allocator.allocate, Memory.Alloc, hne, h]
  · by_cases h : host a.m_memory.m_alloc n a.sizeT = 0 <;>
      simp [Allocator.allocate, Memory.Alloc, countAlloc, hne, h]
  · by_cases h : host a.m_memory.m_alloc n a.sizeT = 0 <;>
      simp [Allocator.allocate, Memory.Alloc, countFree, hne, h]
  · intro h; simp [Allocator.allocate, Memory.Alloc, hne, h]
  · intro h; simp [Allocator.allocate, Memory.Alloc, hne, h]

/-- Witness for C2 at a concrete allocator, host and request size. -/
theorem Allocator_allocate_deallocate_contract_witness :
    countAlloc (Allocator.allocate ⟨4, ⟨1, 2⟩⟩ (fun _ _ _ => 7) 3).2 = 1 :=
  (Allocator_allocate_deallocate_contract ⟨4, ⟨1, 2⟩⟩ (fun _ _ _ => 7) 5 3
    (by decide)).2.2.2.1

/-- Claim C3: two `Allocator` instances compare equal exactly when their
wrapped `Memory` handles do; two `Memory` handles compare equal exactly when
both captured function pointers are identical; `operator!=` is the negation
of `operator==` for both types. -/
theorem Allocator_Memory_equality (A B : Allocator) :
    (Allocator.beq A B = true ↔ Memory.beq A.m_memory B.m_memory = true) ∧
    (Memory.beq A.m_memory B.m_memory = true ↔
      (A.m_memory.m_alloc = B.m_memory.m_alloc ∧
        A.m_memory.m_free = B.m_memory.m_free)) ∧
    (Allocator.bne A B = true ↔ ¬ (Allocator.beq A B = true)) ∧
    (Memory.bne A.m_memory B.m_memory = true ↔
      ¬ (Memory.beq A.m_memory B.m_memory = true)) := by
  simp only [Allocator.beq, Allocator.bne, Memory.beq, Memory.bne,
    Bool.and_eq_true, beq_iff_eq, Bool.not_eq_true', Bool.and_eq_false_iff,
    beq_eq_false_iff_ne, ne_eq, not_and]
  tauto

/-- Witness for C3: two allocators of different element types over the same
function-pointer pair compare equal. -/
theorem Allocator_Memory_equality_witness :
    Memory.beq (Allocator.mk 4 ⟨1, 2⟩).m_memory (Allocator.mk 8 ⟨1, 2⟩).m_memory
      = true :=
  (Allocator_Memory_equality ⟨4, ⟨1, 2⟩⟩ ⟨8, ⟨1, 2⟩⟩).2.1.mpr ⟨rfl, rfl⟩

/-- Claim C4: rebinding an `Allocator<T>` to element type `U` (via the
converting constructor / `rebind<U>::other`) leaves the wrapped `Memory`
unchanged, so the rebound allocator compares equal to the original in both
directions. -/
theorem Allocator_rebind_preserves_memory (A : Allocator) (sizeU : Nat) :
    (Allocator.rebindTo A sizeU).m_memory = A.m_memory ∧
    Allocator.beq (Allocator.rebindTo A sizeU) A = true ∧
    Allocator.beq A (Allocator.rebindTo A sizeU) = true := by
  refine ⟨rfl, ?_, ?_⟩ <;> simp [Allocator.beq, Memory.beq, Allocator.rebindTo]

/-- Claim C6: `Delete<T>(memory, obj)` invokes the destructor of `*obj`
exactly once and afterwards calls the host's free function exactly once with
`obj`'s block; as a total function into an event trace it has no error
channel (the C++ function is `noexcept`). -/
theorem Delete_destroys_then_frees (sizeT : Nat) (memory : Memory) (obj : Nat) :
    Delete sizeT memory obj =
      [Event.destroyObj obj, Event.hostFree memory.m_free obj] ∧
    countDestroy (Delete sizeT memory obj) = 1 ∧
    countFree (Delete sizeT memory obj) = 1 ∧
    countFreeAt obj (Delete sizeT memory obj) = 1 := by
  simp [Delete, Allocator.deallocate, Memory.Free, countDestroy, countFree,
    countFreeAt]

/-- Counterexample to C8 as stated: `Memory::Free` has no null guard, so
freeing the null block does invoke the host's free function, with null as the
argument — one host free call, not zero. -/
theorem Memory_Free_null_calls_host :
    Memory.Free ⟨1, 2⟩ 0 = [Event.hostFree 2 0] ∧
    countFree (Memory.Free ⟨1, 2⟩ 0) = 1 := by
  decide

/-- Claim C8 (amended): `Free(rawBlock)` never throws (it has no error
channel, matching the C++ `noexcept`), and makes exactly one call to the
host's free function, forwarding the given block unchanged — a null block
included, which is passed through to the host rather than intercepted. -/
theorem Memory_Free_forwards_every_pointer (mem : Memory) (p : Nat) :
    Memory.Free mem p = [Event.hostFree mem.m_free p] ∧
    countFree (Memory.Free mem p) = 1 := by
  simp [Memory.Free, countFree]

/-- Claim C1: when the allocation inside `New<T>` succeeds (the host returned
a non-null block) and construction then throws `e`, the trace is exactly one
host allocate call followed by exactly one host free call with that very
block, no destructor runs, and the error propagates unchanged; when
construction succeeds, `New` returns the constructed object's pointer and
performs no deallocation. -/
theorem New_ctor_failure_frees_block (memory : Memory) (host : HostAlloc)
    (sizeT : Nat) (e : CppError) (hp : host memory.m_alloc 1 sizeT ≠ 0) :
    New memory host sizeT (some e) =
      (.error e, [Event.hostAlloc memory.m_alloc 1 sizeT,
        Event.hostFree memory.m_free (host memory.m_alloc 1 sizeT)]) ∧
    countFree (New memory host sizeT (some e)).2 = 1 ∧
    countFreeAt (host memory.m_alloc 1 sizeT)
      (New memory host sizeT (some e)).2 = 1 ∧
    countDestroy (New memory host sizeT (some e)).2 = 0 ∧
    New memory host sizeT none =
      (.ok (host memory.m_alloc 1 sizeT),
        [Event.hostAlloc memory.m_alloc 1 sizeT]) ∧
    countFree (New memory host sizeT none).2 = 0 := by
  refine ⟨?_, ?_, ?_, ?_, ?_, ?_⟩ <;>
    simp [New, Allocator.allocate, Allocator.deallocate, Memory.Alloc,
      Memory.Free, countFree, countFreeAt, countDestroy, hp]

/-- Witness for C1 at a concrete memory, host and throwing constructor. -/
theorem New_ctor_failure_frees_block_witness :
    countFree (New ⟨1, 2⟩ (fun _ _ _ => 7) 4 (some (CppError.fatal "boom"))).2
      = 1 :=
  (New_ctor_failure_frees_block ⟨1, 2⟩ (fun _ _ _ => 7) 4 (CppError.fatal "boom")
    (by decide)).2.1

/-- Claim C5: a handle produced by a successful `AllocateUnique<T>` carries a
release action bound at creation: its closure captured exactly the `Memory`
passed at creation (so the two compare equal), and running it on the held
object performs exactly one destructor call followed by exactly one host free
call through that memory's free function; under the unique-ownership
lifecycle the action runs once at end of ownership and never again. -/
theorem AllocateUnique_release_contract (memory : Memory) (host : HostAlloc)
    (sizeT : Nat) (u : UniquePtr)
    (hu : (AllocateUnique memory host sizeT none).1 = .ok u) :
    u.capturedMemory = memory ∧
    Memory.beq u.capturedMemory memory = true ∧
    u.ptr = host memory.m_alloc 1 sizeT ∧
    u.runDeleter u.ptr =
      [Event.destroyObj u.ptr, Event.hostFree memory.m_free u.ptr] ∧
    countDestroy (u.runDeleter u.ptr) = 1 ∧
    countFree (u.runDeleter u.ptr) = 1 ∧
    u.endOwnership .owning = (.released, u.runDeleter u.ptr) ∧
    (u.endOwnership .owning).1 = .released ∧
    u.endOwnership .released = (.released, []) := by
  by_cases h : host memory.m_alloc 1 sizeT = 0
  · simp [AllocateUnique, New, Allocator.allocate, Memory.Alloc, h] at hu
  · simp [AllocateUnique, New, Allocator.allocate, Memory.Alloc, h] at hu
    subst hu
    refine ⟨rfl, ?_, rfl, ?_, ?_, ?_, rfl, rfl, rfl⟩ <;>
      simp [Memory.beq, UniquePtr.runDeleter, Delete, Allocator.deallocate,
        Memory.Free, countDestroy, countFree]

/-- Witness for C5 at a concrete memory and host. -/
theorem AllocateUnique_release_contract_witness :
    countDestroy (UniquePtr.runDeleter ⟨7, ⟨1, 2⟩, 4⟩ 7) = 1 :=
  (AllocateUnique_release_contract ⟨1, 2⟩ (fun _ _ _ => 7) 4 ⟨7, ⟨1, 2⟩, 4⟩
    rfl).2.2.2.2.2.1

/-- Claim C7: `Logger::Log` always forwards exactly one call to the host's
logger function, carrying the component handle, instance name, status,
category and message, independently of the debug flag; `Logger::DebugLog`
forwards exactly one such call when the shared flag reads true at call time
and makes no host logger call when it reads false. -/
theorem Logger_Log_DebugLog_gating (lg : Logger) (heap : Nat → Bool)
    (cell status : Nat) (category message : String)
    (hc : lg.m_debugLoggingEnabled = some cell) :
    Logger.Log lg status category message =
      [Event.hostLog lg.m_fmiLogger lg.m_component lg.m_instanceName status
        category message] ∧
    countLog (Logger.Log lg status category message) = 1 ∧
    (heap cell = true →
      Logger.DebugLog lg heap status category message =
        some (Logger.Log lg status category message)) ∧
    (heap cell = false →
      Logger.DebugLog lg heap status category message = some []) ∧
    (heap cell = false →
      ∃ evs, Logger.DebugLog lg heap status category message = some evs ∧
        countLog evs = 0) := by
  refine ⟨rfl, by simp [Logger.Log, countLog], ?_, ?_, ?_⟩ <;>
    intro h <;> simp [Logger.DebugLog, Logger.Log, countLog, hc, h]

/-- Witness for C7: toggling the shared flag cell from false to true changes
the DebugLog outcome from no host call to one host call. -/
theorem Logger_Log_DebugLog_gating_witness :
    Logger.DebugLog ⟨10, "inst", 3, some 0⟩ (fun _ => false) 1 "cat" "msg"
        = some [] ∧
    Logger.DebugLog ⟨10, "inst", 3, some 0⟩ (fun _ => true) 1 "cat" "msg"
        = some [Event.hostLog 3 10 "inst" 1 "cat" "msg"] :=
  ⟨(Logger_Log_DebugLog_gating ⟨10, "inst", 3, some 0⟩ (fun _ => false) 0 1
      "cat" "msg" rfl).2.2.2.1 rfl,
   (Logger_Log_DebugLog_gating ⟨10, "inst", 3, some 0⟩ (fun _ => true) 0 1
      "cat" "msg" rfl).2.2.1 rfl⟩

/-- Claim C9: `FatalError` is a distinct error kind — a discriminator tells
it apart from `bad_alloc`, plain `runtime_error` and every other kind, and it
equals another `FatalError` exactly when the messages agree (it carries only
the message).  Inside the module the only handler, the `catch (...)` in
`New`, rethrows it unchanged, so a fatal error arising during construction
propagates out of `New` as the very same error, never recovered locally. -/
theorem FatalError_distinct_and_propagates (msg m2 : String) (code : Nat)
    (memory : Memory) (host : HostAlloc) (sizeT : Nat)
    (hp : host memory.m_alloc 1 sizeT ≠ 0) :
    CppError.isFatal (.fatal msg) = true ∧
    CppError.isFatal .badAlloc = false ∧
    CppError.isFatal (.runtimeError m2) = false ∧
    CppError.isFatal (.other code) = false ∧
    CppError.fatal msg ≠ .badAlloc ∧
    CppError.fatal msg ≠ .runtimeError m2 ∧
    CppError.fatal msg ≠ .other code ∧
    (CppError.fatal msg = CppError.fatal m2 ↔ msg = m2) ∧
    (CppError.fatal msg).message = some msg ∧
    (New memory host sizeT (some (.fatal msg))).1 = .error (.fatal msg) := by
  refine ⟨rfl, rfl, rfl, rfl, by simp, by simp, by simp, by simp, rfl, ?_⟩
  simp [New, Allocator.allocate, Allocator.deallocate, Memory.Alloc,
    Memory.Free, hp]

/-- Witness for C9 at a concrete memory, host and message. -/
theorem FatalError_distinct_and_propagates_witness :
    (New ⟨1, 2⟩ (fun _ _ _ => 7) 4 (some (CppError.fatal "boom"))).1
      = .error (.fatal "boom") :=
  (FatalError_distinct_and_propagates "boom" "x" 0 ⟨1, 2⟩ (fun _ _ _ => 7) 4
    (by decide)).2.2.2.2.2.2.2.2.2

/-- Claim C10: `DebugLog` dereferences the shared debug-flag pointer on every
call with no null guard, so its behaviour is defined exactly when the Logger
was constructed with a non-null shared flag; with a null flag the call is
outside defined behaviour (modelled as result `none`). -/
theorem DebugLog_requires_nonnull_flag (lg : Logger) (heap : Nat → Bool)
    (status : Nat) (category message : String) :
    (Logger.DebugLog lg heap status category message = none ↔
      lg.m_debugLoggingEnabled = none) ∧
    (lg.m_debugLoggingEnabled = none →
      Logger.DebugLog lg heap status category message = none) ∧
    ((Logger.DebugLog lg heap status category message).isSome ↔
      lg.m_debugLoggingEnabled.isSome) := by
  cases h : lg.m_debugLoggingEnabled <;> simp [Logger.DebugLog, h]

/-- Witness for C10: a Logger built with a null shared flag has no defined
DebugLog behaviour. -/
theorem DebugLog_requires_nonnull_flag_witness :
    Logger.DebugLog ⟨10, "inst", 3, none⟩ (fun _ => true) 1 "cat" "msg"
      = none :=
  (DebugLog_requires_nonnull_flag ⟨10, "inst", 3, none⟩ (fun _ => true) 1
    "cat" "msg").2.1 rfl

end cppfmu
